import Mathlib

/-!
Verification development for the CATSEEK R1 chat application
(files CatSEEKR1.py, the simple variant, and CatSEEK.test.py, the
backend-augmented variant).  The Python code is shallowly embedded:
pure response logic becomes Lean functions, the GUI controller becomes
an explicit state machine driven by environment events, and Python
attribute errors are modeled with Except.
-/

namespace CatSeek

/-- ASCII lowercasing of a string, modeling Python str.lower() on the
ASCII inputs the program uses (CatSEEK.test.py line 37, CatSEEKR1.py
line 23 both call input_text.lower()). -/
def pyLower (s : String) : String :=
  String.mk (s.toList.map Char.toLower)

/-- Contiguous-sublist test on character lists: true when the first
list occurs consecutively somewhere inside the second. -/
def charsContain (needle : List Char) : List Char → Bool
  | [] => needle.isEmpty
  | c :: rest => needle.isPrefixOf (c :: rest) || charsContain needle rest

/-- Substring containment: models the Python expression needle in hay
for strings (a contiguous-substring test). -/
def containsSub (hay needle : String) : Bool :=
  charsContain needle.toList hay.toList

/-- Python whitespace characters stripped by str.strip(): space, tab,
newline, carriage return, vertical tab, form feed. -/
def isPyWhitespace (c : Char) : Bool :=
  c = ' ' || c = '\t' || c = '\n' || c = '\r' || c = '\x0b' || c = '\x0c'

/-- Models Python str.strip(): remove leading and trailing whitespace. -/
def pyStrip (s : String) : String :=
  String.mk (((s.toList.dropWhile isPyWhitespace).reverse.dropWhile isPyWhitespace).reverse)

/-- The greeting keyword list shared by both variants
(CatSEEK.test.py line 37, CatSEEKR1.py line 23). -/
def greetingKeywords : List String := ["hi", "hello", "hey"]

/-- Models the shared test
any(g in input_text.lower() for g in [hi, hello, hey]). -/
def hasGreetingKeyword (t : String) : Bool :=
  greetingKeywords.any (fun g => containsSub (pyLower t) g)

/-- Categories of the backend variant (CatSEEK.test.py lines 29-42). -/
inductive NPUCategory
  | greeting
  | question
  | technical
deriving DecidableEq, Repr

/-- Categories of the simple variant (CatSEEKR1.py lines 8-27); the
source key named default is rendered dflt here. -/
inductive CatCategory
  | hello
  | question
  | dflt
deriving DecidableEq, Repr

/-- Classification logic inlined in NPUModel.generate_response
(CatSEEK.test.py lines 37-42): greeting keywords are tested first,
then the question mark, technical is the fallback. -/
def NPUModel.classify (t : String) : NPUCategory :=
  if hasGreetingKeyword t then NPUCategory.greeting
  else if containsSub t "?" then NPUCategory.question
  else NPUCategory.technical

/-- Classification logic inlined in CatMind.generate_response
(CatSEEKR1.py lines 21-26): the question mark is tested FIRST, the
greeting keywords only afterwards, default is the fallback. -/
def CatMind.classify (t : String) : CatCategory :=
  if containsSub t "?" then CatCategory.question
  else if hasGreetingKeyword t then CatCategory.hello
  else CatCategory.dflt

/-- Response pools of the backend variant (CatSEEK.test.py lines 29-35). -/
def npuResponsePatterns : NPUCategory → List String
  | NPUCategory.greeting =>
      ["Purr... Welcome to CATSEEK R1!", "Meow! How can I help?", "*head bump* Hello!"]
  | NPUCategory.question =>
      ["Based on my feline calculations:", "Paws-itive analysis suggests:",
       "The cat dimension reveals:"]
  | NPUCategory.technical =>
      ["NPU matrix calculations complete:", "Neural whiskers indicate:",
       "Quantum cat superposition shows:"]

/-- Response pools of the simple variant (CatSEEKR1.py lines 8-18). -/
def catKnowledge : CatCategory → List String
  | CatCategory.hello =>
      ["Meow! Welcome human.", "Purr... Ready for questions?", "*head bump* Hello!"]
  | CatCategory.question =>
      ["Ancient feline secret... but where\x27s the tuna?",
       "Paw-sitive maybe, needs more nap time",
       "Answer hidden in the litter box"]
  | CatCategory.dflt =>
      ["*tail flick* Try again with fishier question",
       "Napping engine engaged... Zzz"]

/-- Models CatMind.generate_response (CatSEEKR1.py lines 20-27).
random.choice is modeled by an externally supplied index reduced
modulo the pool size, so every random draw is representable. -/
def CatMind.generate_response (choiceIdx : Nat) (t : String) : String :=
  let pool := catKnowledge (CatMind.classify t)
  pool.getD (choiceIdx % pool.length) ""

/-- One bundle of random draws consumed by a ready NPUModel.generate_response
call (CatSEEK.test.py lines 44-54): the template choice index, the four
metric values, and the two positions picked by random.sample from the
4-element components list.  random.uniform(0.1, 0.9) rendered with one
decimal digit is abstracted to its printed tenths digit timeTenths. -/
structure Rand where
  choiceIdx : Nat
  tempVal : Nat
  loadVal : Nat
  memVal : Nat
  timeTenths : Nat
  sampleFst : Nat
  sampleSnd : Nat
deriving DecidableEq, Repr

/-- The fixed 4-element components list of
NPUModel.generate_technical_response (CatSEEK.test.py lines 48-53), with
the random numeric draws supplied by r. -/
def npuComponents (r : Rand) : List String :=
  ["core temp: " ++ toString r.tempVal ++ "°C",
   "NPU load: " ++ toString r.loadVal ++ "%",
   "memory usage: " ++ toString r.memVal ++ "GB",
   "inference time: 0." ++ toString r.timeTenths ++ "s"]

/-- Models NPUModel.generate_technical_response (CatSEEK.test.py lines
46-54): random.sample(components, 2) is modeled by the two externally
supplied positions r.sampleFst and r.sampleSnd into the components list,
joined with the separator and wrapped in the System brackets. -/
def NPUModel.generate_technical_response (r : Rand) : String :=
  "[System: " ++ (npuComponents r).getD r.sampleFst "" ++ " | "
    ++ (npuComponents r).getD r.sampleSnd "" ++ "]"

/-- Models NPUModel.generate_response (CatSEEK.test.py lines 20-44):
when not initialized the sentinel error string is returned; otherwise a
template of the classified category pool (random.choice modeled by an
index modulo the pool size) is concatenated with a space and the
technical suffix.  The time.sleep latency has no state effect. -/
def NPUModel.generate_response (initialized : Bool) (r : Rand) (t : String) : String :=
  if initialized = false then "Error: Model not loaded"
  else
    let pool := npuResponsePatterns (NPUModel.classify t)
    pool.getD (r.choiceIdx % pool.length) "" ++ " " ++ NPUModel.generate_technical_response r

/-- A transcript entry: the tag passed to _show_message and the text. -/
structure Msg where
  sender : String
  text : String
deriving DecidableEq, Repr

/-- State of the backend-variant controller CatSeekGUI
(CatSEEK.test.py): the model readiness flags, the widget-visible state
(input field, transcript, labels), the context list, whether the typing
placeholder is shown, and inFlight, the number of generate_response
worker threads dispatched by send_message whose completion callback has
not yet run (the PendingTurn count of the environment; the Python code
itself keeps no such counter). -/
structure NPUGuiState where
  modelInitialized : Bool
  model_ready : Bool
  inputEnabled : Bool
  inputField : String
  transcript : List Msg
  current_context : List String
  statusText : String
  contextLabel : String
  typingShown : Bool
  inFlight : Nat
deriving DecidableEq, Repr

/-- Initial state after CatSeekGUI.__init__ (CatSEEK.test.py lines
75-94): input disabled by _create_input_system, the initializing system
message shown, model not yet initialized. -/
def initialNPUGuiState : NPUGuiState :=
  { modelInitialized := false
    model_ready := false
    inputEnabled := false
    inputField := ""
    transcript := [⟨"SYSTEM", "Initializing NPU subsystem..."⟩]
    current_context := []
    statusText := "NPU Status: Initializing..."
    contextLabel := "Context: 0 items"
    typingShown := false
    inFlight := 0 }

/-- Models CatSeekGUI._check_model_status (CatSEEK.test.py lines
175-181): on the first poll observing model.initialized with
model_ready still false, set model_ready, append the ready system
message, enable the input surface and set the status text; on every
other poll, do nothing (the self-rescheduling via master.after is the
poll event itself). -/
def NPUGui.check_model_status (s : NPUGuiState) : NPUGuiState :=
  if s.modelInitialized = true ∧ s.model_ready = false then
    { s with
      model_ready := true
      transcript := s.transcript ++ [⟨"SYSTEM", "NPU subsystem ready"⟩]
      inputEnabled := true
      statusText := "NPU Status: Active | Load: 0%" }
  else s

/-- Models CatSeekGUI._update_context_display (CatSEEK.test.py lines
227-230) applied to a state: the context label shows the context
length and the status label shows a randomized load, supplied as load. -/
def NPUGui.update_context_display (load : Nat) (s : NPUGuiState) : NPUGuiState :=
  { s with
    contextLabel := "Context: " ++ toString s.current_context.length ++ " items"
    statusText := "NPU Status: Active | Load: " ++ toString load ++ "%" }

/-- Models CatSeekGUI.send_message (CatSEEK.test.py lines 183-194):
strip the entry text; return unchanged when it is empty or the model is
not ready; otherwise append the user message, clear the entry, append
to the context list, refresh the display labels (load is the random
draw of _update_context_display), show the typing indicator, and
dispatch one generate_response worker (inFlight grows by one). -/
def NPUGui.send_message (load : Nat) (s : NPUGuiState) : NPUGuiState :=
  let user_text := pyStrip s.inputField
  if user_text = "" ∨ s.model_ready = false then s
  else
    NPUGui.update_context_display load
      { s with
        transcript := s.transcript ++ [⟨"USER", user_text⟩]
        inputField := ""
        current_context := s.current_context ++ [user_text]
        typingShown := true
        inFlight := s.inFlight + 1 }

/-- Models CatSeekGUI._handle_model_response (CatSEEK.test.py lines
196-200) as a state transition: hide the typing indicator, append the
NPU message, append the response to the context and refresh the display
labels; one dispatched worker completes, so inFlight shrinks by one.
(The execution context on which the source runs each of these actions
is modeled separately for the concurrency claim.) -/
def NPUGui.handle_model_response (resp : String) (load : Nat) (s : NPUGuiState) : NPUGuiState :=
  NPUGui.update_context_display load
    { s with
      typingShown := false
      transcript := s.transcript ++ [⟨"NPU", resp⟩]
      current_context := s.current_context ++ [resp]
      inFlight := s.inFlight - 1 }

/-- Environment events driving the backend-variant controller: the
background loader finishing (initialize_model setting initialized), a
readiness poll, the user editing the entry field, the user submitting,
and a dispatched worker completing with a response (only possible when
one is in flight). -/
inductive NPUEv
  | loaded
  | poll
  | typeText (t : String)
  | submit (load : Nat)
  | complete (resp : String) (load : Nat)
deriving DecidableEq, Repr

/-- One environment step of the backend-variant controller. -/
def NPUGui.stepEv (s : NPUGuiState) : NPUEv → NPUGuiState
  | NPUEv.loaded => { s with modelInitialized := true }
  | NPUEv.poll => NPUGui.check_model_status s
  | NPUEv.typeText t => { s with inputField := t }
  | NPUEv.submit load => NPUGui.send_message load s
  | NPUEv.complete resp load =>
      if s.inFlight = 0 then s else NPUGui.handle_model_response resp load s

/-- Run a list of environment events from a state. -/
def NPUGui.run (evs : List NPUEv) (s : NPUGuiState) : NPUGuiState :=
  evs.foldl NPUGui.stepEv s

/-- State of the simple-variant controller CatSeekGUI (CatSEEKR1.py):
the entry field, the transcript, the typing_animation handle (None
until _show_typing first schedules a tick), and scheduled, the number
of master.after(800, _generate_response, ...) callbacks dispatched by
send_message and not yet fired (the PendingTurn count of the
environment; the Python code itself keeps no such counter). -/
structure R1State where
  inputField : String
  transcript : List Msg
  typing_animation : Option Nat
  scheduled : Nat
deriving DecidableEq, Repr

/-- Initial state after the simple-variant CatSeekGUI.__init__
(CatSEEKR1.py lines 30-61): typing_animation is None and the greeting
bot message is already shown. -/
def initialR1State : R1State :=
  { inputField := ""
    transcript := [⟨"bot", "Hi I\x27m Catseek. How can I help you today?"⟩]
    typing_animation := none
    scheduled := 0 }

/-- Models the simple-variant CatSeekGUI.send_message (CatSEEKR1.py
lines 157-165): strip the entry text; return unchanged when empty;
otherwise append the user message, clear the entry, start the typing
animation (_show_typing runs animate once, which schedules a tick and
stores its handle in typing_animation) and schedule one
_generate_response callback. -/
def R1.send_message (s : R1State) : R1State :=
  let user_text := pyStrip s.inputField
  if user_text = "" then s
  else
    { s with
      transcript := s.transcript ++ [⟨"user", user_text⟩]
      inputField := ""
      typing_animation := some 0
      scheduled := s.scheduled + 1 }

/-- Attribute state of the backend-variant typing indicator
(CatSEEK.test.py): typing_id is set by _show_typing_indicator (line
203) and typing_anim by _animate_typing (line 211); neither attribute
exists before those run, modeled as none.  placeholderShown records
whether the Processing placeholder line is in the transcript. -/
structure IndicatorState where
  typing_anim : Option Nat
  typing_id : Option Nat
  placeholderShown : Bool
deriving DecidableEq, Repr

/-- Models CatSeekGUI._show_typing_indicator plus the first
_animate_typing call (CatSEEK.test.py lines 202-211): the placeholder
line is inserted and both attributes become set. -/
def NPUGui.show_typing_indicator (s : IndicatorState) : IndicatorState :=
  { s with typing_id := some 0, typing_anim := some 0, placeholderShown := true }

/-- Models CatSeekGUI._hide_typing_indicator (CatSEEK.test.py lines
213-216).  The after_cancel call is guarded by hasattr(self,
typing_anim) and only cancels a timer, with no modeled state effect.
The following line reads self.typing_id UNCONDITIONALLY: when
_show_typing_indicator never ran, that attribute does not exist and
Python raises AttributeError, modeled as Except.error; otherwise the
placeholder is deleted (the attributes themselves are never removed). -/
def NPUGui.hide_typing_indicator (s : IndicatorState) : Except String IndicatorState :=
  match s.typing_id with
  | none => Except.error "AttributeError"
  | some _ => Except.ok { s with placeholderShown := false }

/-- The two execution contexts of the backend variant: the tkinter
mainloop thread and a threading.Thread worker. -/
inductive ExecCtx
  | uiThread
  | workerThread
deriving DecidableEq, Repr

/-- The UI mutations performed by CatSeekGUI._handle_model_response
(CatSEEK.test.py lines 196-200). -/
inductive UIOp
  | hideTypingIndicator
  | showMessage (sender text : String)
  | appendContext (text : String)
  | updateContextDisplay
deriving DecidableEq, Repr

/-- The execution context on which CatMind.generate_response invokes
its completion callback (CatSEEK.test.py lines 67-72): run_inference
executes on a freshly started threading.Thread and calls
callback(response) there directly. -/
def CatMind.callback_ctx : ExecCtx := ExecCtx.workerThread

/-- Models CatSeekGUI._handle_model_response (CatSEEK.test.py lines
196-200) at the level of execution contexts: each UI mutation paired
with the context it runs on when the handler itself is entered on ctx.
Only _hide_typing_indicator is marshalled to the UI thread via
self.master.after(0, ...); _show_message, the context append and
_update_context_display all run directly on ctx. -/
def NPUGui.handle_model_response_ops (ctx : ExecCtx) (resp : String) :
    List (ExecCtx × UIOp) :=
  [(ExecCtx.uiThread, UIOp.hideTypingIndicator),
   (ctx, UIOp.showMessage "NPU" resp),
   (ctx, UIOp.appendContext resp),
   (ctx, UIOp.updateContextDisplay)]

/-- The operations of UIOp that mutate the transcript widget or other
widget state (as opposed to the pure context-list append). -/
def UIOp.mutatesWidget : UIOp → Bool
  | UIOp.hideTypingIndicator => true
  | UIOp.showMessage _ _ => true
  | UIOp.appendContext _ => false
  | UIOp.updateContextDisplay => true

/-- Number of ready system messages in a transcript: entries produced
by the one-time branch of _check_model_status (sender SYSTEM, text
NPU subsystem ready). -/
def readyMsgCount (l : List Msg) : Nat :=
  l.countP (fun m => m.sender == "SYSTEM" && m.text == "NPU subsystem ready")

/-! ## Helper lemmas -/

/-- An element read at an index reduced modulo the length of a
nonempty list is a member of the list. -/
theorem getD_mod_mem {α : Type} (l : List α) (n : Nat) (d : α) (h : 0 < l.length) :
    l.getD (n % l.length) d ∈ l := by
  have hmod : n % l.length < l.length := Nat.mod_lt _ h
  rw [List.getD_eq_getElem l d hmod]
  exact List.getElem_mem hmod

/-- Every environment step preserves the bookkeeping equation tying the
number of ready system messages to the model_ready flag. -/
theorem stepEv_readyMsgCount (s : NPUGuiState) (e : NPUEv)
    (h : readyMsgCount s.transcript = (if s.model_ready then 1 else 0)) :
    readyMsgCount (NPUGui.stepEv s e).transcript
      = (if (NPUGui.stepEv s e).model_ready then 1 else 0) := by
  cases e with
  | loaded => simpa [NPUGui.stepEv] using h
  | poll =>
      by_cases hc : s.modelInitialized = true ∧ s.model_ready = false
      · simp [NPUGui.stepEv, NPUGui.check_model_status, hc, readyMsgCount,
          List.countP_append] at h ⊢
        simpa [hc.2, readyMsgCount] using h
      · simpa [NPUGui.stepEv, NPUGui.check_model_status, hc] using h
  | typeText t => simpa [NPUGui.stepEv] using h
  | submit load =>
      by_cases hc : pyStrip s.inputField = "" ∨ s.model_ready = false
      · simpa [NPUGui.stepEv, NPUGui.send_message, hc] using h
      · simp [NPUGui.stepEv, NPUGui.send_message, hc,
          NPUGui.update_context_display, readyMsgCount, List.countP_append] at h ⊢
        simpa [readyMsgCount] using h
  | complete resp load =>
      by_cases hc : s.inFlight = 0
      · simpa [NPUGui.stepEv, hc] using h
      · simp [NPUGui.stepEv, NPUGui.handle_model_response, hc,
          NPUGui.update_context_display, readyMsgCount, List.countP_append] at h ⊢
        simpa [readyMsgCount] using h

/-- The bookkeeping equation holds in every reachable state. -/
theorem run_readyMsgCount (evs : List NPUEv) :
    readyMsgCount (NPUGui.run evs initialNPUGuiState).transcript
      = (if (NPUGui.run evs initialNPUGuiState).model_ready then 1 else 0) := by
  suffices h : ∀ s : NPUGuiState,
      readyMsgCount s.transcript = (if s.model_ready then 1 else 0) →
      readyMsgCount (NPUGui.run evs s).transcript
        = (if (NPUGui.run evs s).model_ready then 1 else 0) from
    h initialNPUGuiState (by decide)
  induction evs with
  | nil => intro s hs; simpa [NPUGui.run] using hs
  | cons e tl ih =>
      intro s hs
      have hstep := stepEv_readyMsgCount s e hs
      simpa [NPUGui.run] using ih (NPUGui.stepEv s e) hstep

/-- Every environment step preserves the implication that an enabled
input surface means the model is ready. -/
theorem stepEv_inputEnabled (s : NPUGuiState) (e : NPUEv)
    (h : s.inputEnabled = true → s.model_ready = true) :
    (NPUGui.stepEv s e).inputEnabled = true → (NPUGui.stepEv s e).model_ready = true := by
  cases e with
  | loaded => simpa [NPUGui.stepEv] using h
  | poll =>
      by_cases hc : s.modelInitialized = true ∧ s.model_ready = false
      · simp [NPUGui.stepEv, NPUGui.check_model_status, hc]
      · simpa [NPUGui.stepEv, NPUGui.check_model_status, hc] using h
  | typeText t => simpa [NPUGui.stepEv] using h
  | submit load =>
      by_cases hc : pyStrip s.inputField = "" ∨ s.model_ready = false
      · simpa [NPUGui.stepEv, NPUGui.send_message, hc] using h
      · simp [NPUGui.stepEv, NPUGui.send_message, hc, NPUGui.update_context_display]
        push_neg at hc
        intro _
        simpa using hc.2
  | complete resp load =>
      by_cases hc : s.inFlight = 0
      · simpa [NPUGui.stepEv, hc] using h
      · simpa [NPUGui.stepEv, NPUGui.handle_model_response, hc,
          NPUGui.update_context_display] using h

/-- In every reachable state, an enabled input surface implies the
model is ready. -/
theorem run_inputEnabled (evs : List NPUEv) :
    (NPUGui.run evs initialNPUGuiState).inputEnabled = true →
    (NPUGui.run evs initialNPUGuiState).model_ready = true := by
  suffices h : ∀ s : NPUGuiState, (s.inputEnabled = true → s.model_ready = true) →
      ((NPUGui.run evs s).inputEnabled = true → (NPUGui.run evs s).model_ready = true) from
    h initialNPUGuiState (by decide)
  induction evs with
  | nil => intro s hs; simpa [NPUGui.run] using hs
  | cons e tl ih =>
      intro s hs
      have hstep := stepEv_inputEnabled s e hs
      simpa [NPUGui.run] using ih (NPUGui.stepEv s e) hstep

/-! ## Claim theorems -/

/-- C1 counterexample: the claim that greeting keywords take precedence
over the question mark in BOTH variants is false.  On the input hi?,
the simple variant CatMind.generate_response (CatSEEKR1.py lines 21-26)
tests the question mark first and classifies the input as question, not
as the greeting category. -/
theorem greeting_precedence_counterexample :
    CatMind.classify "hi?" = CatCategory.question
    ∧ CatMind.classify "hi?" ≠ CatCategory.hello := by decide

/-- C1 (amended): greeting keywords have highest precedence only in the
backend variant NPUModel.generate_response, where any input containing
a greeting keyword is classified greeting regardless of a question
mark; in the simple variant CatMind.generate_response the question-mark
test comes first, so a greeting-containing input is classified question
when it contains a question mark and as the greeting category
otherwise. -/
theorem greeting_precedence_amended :
    ∀ t : String, hasGreetingKeyword t = true →
      NPUModel.classify t = NPUCategory.greeting
      ∧ CatMind.classify t
          = (if containsSub t "?" = true then CatCategory.question else CatCategory.hello) := by
  intro t h
  constructor
  · simp [NPUModel.classify, h]
  · by_cases hq : containsSub t "?" = true
    · simp [CatMind.classify, hq]
    · simp [CatMind.classify, hq, h]

/-- C1 witness: the amended claim evaluated at the concrete input
hello?, which the backend variant classifies greeting and the simple
variant classifies question. -/
theorem greeting_precedence_amended_witness :
    NPUModel.classify "hello?" = NPUCategory.greeting
    ∧ CatMind.classify "hello?"
        = (if containsSub "hello?" "?" = true then CatCategory.question else CatCategory.hello) :=
  greeting_precedence_amended "hello?" (by decide)

/-- C2 counterexample: with one turn in flight (a user message appended
and its response not yet delivered, inFlight = 1), a further submit
with nonempty text is NOT a no-op in the backend variant: it appends a
second user message and dispatches a second generate worker
(inFlight = 2), because send_message (CatSEEK.test.py lines 183-194)
checks only emptiness and readiness. -/
theorem second_submit_not_noop_counterexample :
    (NPUGui.run [NPUEv.loaded, NPUEv.poll, NPUEv.typeText "a", NPUEv.submit 5,
        NPUEv.typeText "b"] initialNPUGuiState).inFlight = 1
    ∧ (NPUGui.run [NPUEv.loaded, NPUEv.poll, NPUEv.typeText "a", NPUEv.submit 5,
        NPUEv.typeText "b"] initialNPUGuiState).transcript.length = 3
    ∧ (NPUGui.run [NPUEv.loaded, NPUEv.poll, NPUEv.typeText "a", NPUEv.submit 5,
        NPUEv.typeText "b", NPUEv.submit 7] initialNPUGuiState).transcript.length = 4
    ∧ (NPUGui.run [NPUEv.loaded, NPUEv.poll, NPUEv.typeText "a", NPUEv.submit 5,
        NPUEv.typeText "b", NPUEv.submit 7] initialNPUGuiState).inFlight = 2 := by decide

/-- C2 (amended): neither variant enforces an at-most-one-in-flight
turn: in both shipped send_message implementations a submission with
nonempty trimmed text (and, in the backend variant, model ready) always
appends a user message and dispatches another response generation, no
matter how many turns are already pending. -/
theorem submit_unguarded_by_pending_turn :
    (∀ (load : Nat) (s : NPUGuiState),
      pyStrip s.inputField ≠ "" → s.model_ready = true →
        (NPUGui.send_message load s).transcript
            = s.transcript ++ [⟨"USER", pyStrip s.inputField⟩]
        ∧ (NPUGui.send_message load s).inFlight = s.inFlight + 1)
    ∧ (∀ s : R1State, pyStrip s.inputField ≠ "" →
        (R1.send_message s).transcript = s.transcript ++ [⟨"user", pyStrip s.inputField⟩]
        ∧ (R1.send_message s).scheduled = s.scheduled + 1) := by
  constructor
  · intro load s h1 h2
    simp [NPUGui.send_message, NPUGui.update_context_display, h1, h2]
  · intro s h1
    simp [R1.send_message, h1]

/-- C2 witness: the amended claim evaluated in a concrete reachable
backend-variant state that already has one turn in flight. -/
theorem submit_unguarded_witness :
    (NPUGui.send_message 7 (NPUGui.run [NPUEv.loaded, NPUEv.poll, NPUEv.typeText "a",
        NPUEv.submit 5, NPUEv.typeText "b"] initialNPUGuiState)).transcript
      = (NPUGui.run [NPUEv.loaded, NPUEv.poll, NPUEv.typeText "a", NPUEv.submit 5,
          NPUEv.typeText "b"] initialNPUGuiState).transcript
        ++ [⟨"USER", pyStrip (NPUGui.run [NPUEv.loaded, NPUEv.poll, NPUEv.typeText "a",
          NPUEv.submit 5, NPUEv.typeText "b"] initialNPUGuiState).inputField⟩]
    ∧ (NPUGui.send_message 7 (NPUGui.run [NPUEv.loaded, NPUEv.poll, NPUEv.typeText "a",
        NPUEv.submit 5, NPUEv.typeText "b"] initialNPUGuiState)).inFlight
      = (NPUGui.run [NPUEv.loaded, NPUEv.poll, NPUEv.typeText "a", NPUEv.submit 5,
          NPUEv.typeText "b"] initialNPUGuiState).inFlight + 1 :=
  submit_unguarded_by_pending_turn.1 7 _ (by decide) (by decide)

/-- C3 (code bug): CatSeekGUI._hide_typing_indicator (CatSEEK.test.py
lines 213-216) guards the after_cancel call with hasattr but then reads
self.typing_id unconditionally, so calling it when the indicator was
never started raises AttributeError instead of being the safe no-error
idempotent stop the specification requires. -/
theorem stop_never_started_attribute_error :
    NPUGui.hide_typing_indicator
        { typing_anim := none, typing_id := none, placeholderShown := false }
      = Except.error "AttributeError" := rfl

/-- C4: the readiness side effect fires exactly once per session: in
every state reachable by any event trace from the initial state, the
number of ready system messages equals one exactly when model_ready
holds; once model_ready is set the whole _check_model_status body is
the identity, so no later poll repeats setInputEnabled(true) or any
other side effect; and the first poll observing the initialized backend
does set model_ready and enable the input. -/
theorem readiness_fires_exactly_once :
    (∀ evs : List NPUEv,
      readyMsgCount (NPUGui.run evs initialNPUGuiState).transcript
        = (if (NPUGui.run evs initialNPUGuiState).model_ready then 1 else 0))
    ∧ (∀ s : NPUGuiState, s.model_ready = true → NPUGui.check_model_status s = s)
    ∧ (∀ s : NPUGuiState, s.modelInitialized = true → s.model_ready = false →
        (NPUGui.check_model_status s).model_ready = true
        ∧ (NPUGui.check_model_status s).inputEnabled = true) := by
  refine ⟨run_readyMsgCount, ?_, ?_⟩
  · intro s h
    simp [NPUGui.check_model_status, h]
  · intro s h1 h2
    simp [NPUGui.check_model_status, h1, h2]

/-- C4 witness: the once-only branch evaluated at concrete states, one
already ready (the poll is the identity) and one initialized but not
yet ready (the poll fires the transition). -/
theorem readiness_fires_exactly_once_witness :
    NPUGui.check_model_status { initialNPUGuiState with model_ready := true }
        = { initialNPUGuiState with model_ready := true }
    ∧ (NPUGui.check_model_status { initialNPUGuiState with modelInitialized := true }).model_ready
        = true
    ∧ (NPUGui.check_model_status
        { initialNPUGuiState with modelInitialized := true }).inputEnabled = true :=
  ⟨readiness_fires_exactly_once.2.1 _ rfl,
   (readiness_fires_exactly_once.2.2 _ rfl rfl).1,
   (readiness_fires_exactly_once.2.2 _ rfl rfl).2⟩

/-- C5 (code bug): in the multi-thread variant the completion callback
is invoked by CatMind.generate_response on the worker thread
(CatSEEK.test.py lines 67-72), and _handle_model_response (lines
196-200) marshals only _hide_typing_indicator to the UI thread via
master.after; the transcript append _show_message and the widget update
_update_context_display execute directly on the worker thread,
contradicting the claim that no transcript or widget mutation ever runs
on the background thread. -/
theorem worker_thread_mutation :
    (ExecCtx.workerThread, UIOp.showMessage "NPU" "x")
        ∈ NPUGui.handle_model_response_ops CatMind.callback_ctx "x"
    ∧ (ExecCtx.workerThread, UIOp.updateContextDisplay)
        ∈ NPUGui.handle_model_response_ops CatMind.callback_ctx "x"
    ∧ UIOp.mutatesWidget (UIOp.showMessage "NPU" "x") = true
    ∧ UIOp.mutatesWidget UIOp.updateContextDisplay = true := by decide

/-- C6: whenever the backend is not initialized,
NPUModel.generate_response returns exactly the sentinel string for
every input text and every bundle of random draws; the function is
total, so the caller always receives an ordinary string. -/
theorem not_loaded_sentinel :
    ∀ (r : Rand) (t : String),
      NPUModel.generate_response false r t = "Error: Model not loaded" := by
  intro r t
  rfl

/-- C7: in the backend variant, while the model is not ready, a
submission is silently ignored: send_message returns the state
unchanged (so no transcript entry, no context item, no dispatched work,
no typing indicator), and in every reachable not-ready state the input
surface is disabled. -/
theorem not_ready_submission_ignored :
    ∀ (evs : List NPUEv) (load : Nat),
      (NPUGui.run evs initialNPUGuiState).model_ready = false →
      NPUGui.send_message load (NPUGui.run evs initialNPUGuiState)
          = NPUGui.run evs initialNPUGuiState
      ∧ (NPUGui.run evs initialNPUGuiState).inputEnabled = false := by
  intro evs load h
  constructor
  · simp [NPUGui.send_message, h]
  · by_cases he : (NPUGui.run evs initialNPUGuiState).inputEnabled = true
    · have := run_inputEnabled evs he
      rw [this] at h
      exact absurd h (by simp)
    · simpa using he

/-- C7 witness: the freshly constructed backend-variant GUI is not
ready; submitting there changes nothing and the input is disabled. -/
theorem not_ready_submission_ignored_witness :
    NPUGui.send_message 0 (NPUGui.run [NPUEv.typeText "hello"] initialNPUGuiState)
        = NPUGui.run [NPUEv.typeText "hello"] initialNPUGuiState
    ∧ (NPUGui.run [NPUEv.typeText "hello"] initialNPUGuiState).inputEnabled = false :=
  not_ready_submission_ignored [NPUEv.typeText "hello"] 0 (by decide)

/-- C8: an input that is empty or whitespace-only after trimming leaves
the whole conversation state unchanged in both variants: send_message
is the identity there, so no message, no context change, no generation
and no typing animation. -/
theorem empty_submit_frame :
    ∀ (s : NPUGuiState) (s2 : R1State) (load : Nat),
      pyStrip s.inputField = "" → pyStrip s2.inputField = "" →
      NPUGui.send_message load s = s ∧ R1.send_message s2 = s2 := by
  intro s s2 load h1 h2
  constructor
  · simp [NPUGui.send_message, h1]
  · simp [R1.send_message, h2]

/-- C8 witness: the frame property evaluated at concrete states whose
entry field holds three spaces. -/
theorem empty_submit_frame_witness :
    NPUGui.send_message 3 { initialNPUGuiState with inputField := "   " }
        = { initialNPUGuiState with inputField := "   " }
    ∧ R1.send_message { initialR1State with inputField := "   " }
        = { initialR1State with inputField := "   " } :=
  empty_submit_frame _ _ 3 (by decide) (by decide)

/-- C9: when the model is ready, every response of the backend variant
has the shape template, space, then the System suffix built from
exactly two distinct positions of the fixed 4-element components list
(core temp, NPU load, memory usage, inference time) joined by the bar
separator; the template belongs to the pool of the classified
category. -/
theorem ready_response_shape :
    ∀ (r : Rand) (t : String),
      r.sampleFst < 4 → r.sampleSnd < 4 → r.sampleFst ≠ r.sampleSnd →
      ∃ (template m1 m2 : String) (i j : Nat),
        template ∈ npuResponsePatterns (NPUModel.classify t)
        ∧ i < 4 ∧ j < 4 ∧ i ≠ j
        ∧ m1 = (npuComponents r).getD i ""
        ∧ m2 = (npuComponents r).getD j ""
        ∧ NPUModel.generate_technical_response r
            = "[System: " ++ m1 ++ " | " ++ m2 ++ "]"
        ∧ NPUModel.generate_response true r t
            = template ++ " " ++ NPUModel.generate_technical_response r := by
  intro r t h1 h2 h3
  refine ⟨(npuResponsePatterns (NPUModel.classify t)).getD
      (r.choiceIdx % (npuResponsePatterns (NPUModel.classify t)).length) "",
    (npuComponents r).getD r.sampleFst "", (npuComponents r).getD r.sampleSnd "",
    r.sampleFst, r.sampleSnd, ?_, h1, h2, h3, rfl, rfl, rfl, rfl⟩
  apply getD_mod_mem
  cases NPUModel.classify t <;> decide

/-- C9 witness: the response shape evaluated at a concrete random
bundle and the input hello. -/
theorem ready_response_shape_witness :
    ∃ (template m1 m2 : String) (i j : Nat),
      template ∈ npuResponsePatterns (NPUModel.classify "hello")
      ∧ i < 4 ∧ j < 4 ∧ i ≠ j
      ∧ m1 = (npuComponents ⟨0, 30, 10, 1, 1, 0, 1⟩).getD i ""
      ∧ m2 = (npuComponents ⟨0, 30, 10, 1, 1, 0, 1⟩).getD j ""
      ∧ NPUModel.generate_technical_response ⟨0, 30, 10, 1, 1, 0, 1⟩
          = "[System: " ++ m1 ++ " | " ++ m2 ++ "]"
      ∧ NPUModel.generate_response true ⟨0, 30, 10, 1, 1, 0, 1⟩ "hello"
          = template ++ " " ++ NPUModel.generate_technical_response ⟨0, 30, 10, 1, 1, 0, 1⟩ :=
  ready_response_shape ⟨0, 30, 10, 1, 1, 0, 1⟩ "hello" (by decide) (by decide) (by decide)

/-- C10: greeting detection is a raw substring test on the lowercased
input, so any input whose lowercase form contains hi, hello or hey
anywhere is classified as a greeting: unconditionally in the backend
variant, and whenever the input contains no question mark in the simple
variant; in particular the unrelated words this, think and they all
trigger it. -/
theorem greeting_substring_semantics :
    (∀ t : String, hasGreetingKeyword t = true →
        NPUModel.classify t = NPUCategory.greeting)
    ∧ (∀ t : String, hasGreetingKeyword t = true → containsSub t "?" = false →
        CatMind.classify t = CatCategory.hello)
    ∧ hasGreetingKeyword "this" = true
    ∧ hasGreetingKeyword "think" = true
    ∧ hasGreetingKeyword "they" = true
    ∧ NPUModel.classify "this" = NPUCategory.greeting
    ∧ CatMind.classify "I think so" = CatCategory.hello := by
  refine ⟨?_, ?_, by decide, by decide, by decide, by decide, by decide⟩
  · intro t h
    simp [NPUModel.classify, h]
  · intro t h hq
    simp [CatMind.classify, h, hq]

/-- C10 witness: the substring semantics evaluated at the concrete
unrelated-word inputs they and hi there. -/
theorem greeting_substring_semantics_witness :
    NPUModel.classify "they" = NPUCategory.greeting
    ∧ CatMind.classify "hi there" = CatCategory.hello :=
  ⟨greeting_substring_semantics.1 "they" (by decide),
   greeting_substring_semantics.2.1 "hi there" (by decide) (by decide)⟩

end CatSeek
